import Mathlib

/-!
Shallow embedding of the PyWithingsAPI client library (pywithingsapi package):
the OAuth2 token lifecycle (withings_user.py, withings_client.py), the request
dispatch path (post_request.py), and the request-dictionary builders the claims
touch (sleep.py, measure.py, utils.py).

HTTP traffic, wall-clock time and file-system writes are modelled by explicit
oracle parameters (an environment record carries the outcome of each external
interaction), so every function below is a pure, executable translation of the
corresponding Python function.
-/

namespace PyWithings

/-- URL constants from CONSTANTS.py. -/
def URL_OAUTH2_V2 : String := "https://wbsapi.withings.net/v2/oauth2"

def URL_MEASURE : String := "https://wbsapi.withings.net/measure"

def URL_MEASURE_V2 : String := "https://wbsapi.withings.net/v2/measure"

def URL_SLEEP_V2 : String := "https://wbsapi.withings.net/v2/sleep"

def URL_AUTH : String := "https://account.withings.com/oauth2_user/authorize2"

/-- CONSTANTS.SLEEP_GET_DATA_FIELDS. -/
def SLEEP_GET_DATA_FIELDS : List String :=
  ["hr", "rr", "snoring", "sdnn_1", "rmssd", "mvt_score"]

/-- The six credential fields a `WithingsUser` carries
(userid, access_token, refresh_token, scope, token_type, expiration_time).
`expiration_time` is a Unix timestamp (seconds). -/
structure UserCreds where
  userid : String
  access_token : String
  refresh_token : String
  scope : String
  token_type : String
  expiration_time : Int
deriving Repr, DecidableEq

/-- Python exceptions that can surface in the credential / dispatch flow. -/
inductive PyError where
  | requestException (msg : String)
  | keyError (key : String)
  | withingsStatusNotZero (status : Int)
  | valueError (msg : String)
  | typeError (msg : String)
deriving Repr, DecidableEq

/-- The `"body"` object of a token-endpoint response, with each key optional so
that malformed responses (missing keys) are representable: accessing a missing
key raises `KeyError` in the Python code. -/
structure RefreshBody where
  access_token : Option String
  refresh_token : Option String
  expires_in : Option Int
deriving Repr, DecidableEq

/-- Outcome of the token-endpoint POST performed by `post_request_refresh`:
either `requests.post`/`raise_for_status` raises (`failure`), or it returns a
parsed JSON dict whose `"body"` key may be present or missing. -/
inductive RefreshHttp where
  | failure (msg : String)
  | success (body : Option RefreshBody)
deriving Repr, DecidableEq

/-- Effects recorded while running `refresh_existing_token`: how many POST
requests were issued to the token endpoint, and the full credential records
handed to `store_user_params` (in order). -/
structure RefreshTrace where
  postCalls : Nat
  stores : List UserCreds
deriving Repr, DecidableEq

/-- `WithingsUser.refresh_existing_token` (withings_user.py lines 187-199):

    res = json.loads(self.post_request_refresh().content)["body"]
    self.access_token = res["access_token"]
    self.refresh_token = res["refresh_token"]
    self.expiration_time = int(time.time()) + res["expires_in"]
    self.store_user_params()

Returns the raised exception (if any), the user's credential state after the
call (assignments before a raise are kept, matching Python attribute
mutation), and the trace of effects. Exactly one POST is issued; there is no
retry. -/
def refresh_existing_token (now : Int) (http : RefreshHttp) (u : UserCreds) :
    Option PyError × UserCreds × RefreshTrace :=
  match http with
  | .failure msg => (some (.requestException msg), u, ⟨1, []⟩)
  | .success none => (some (.keyError "body"), u, ⟨1, []⟩)
  | .success (some res) =>
    match res.access_token with
    | none => (some (.keyError "access_token"), u, ⟨1, []⟩)
    | some a =>
      match res.refresh_token with
      | none => (some (.keyError "refresh_token"), { u with access_token := a }, ⟨1, []⟩)
      | some r =>
        match res.expires_in with
        | none =>
          (some (.keyError "expires_in"),
           { u with access_token := a, refresh_token := r }, ⟨1, []⟩)
        | some e =>
          let u1 : UserCreds :=
            { u with access_token := a, refresh_token := r, expiration_time := now + e }
          (none, u1, ⟨1, [u1]⟩)

/-- `WithingsUser.create_headers` (withings_user.py lines 150-163). -/
def create_headers (u : UserCreds) : List (String × String) :=
  [("Authorization", u.token_type ++ " " ++ u.access_token),
   ("Content-Type", "application/x-www-form-urlencoded")]

/-- The record `store_user_params` serializes to `user_params.json`
(withings_user.py lines 126-148): the six credential fields plus the client's
`demo` flag. -/
structure StoredUserParams where
  userid : String
  access_token : String
  refresh_token : String
  scope : String
  token_type : String
  expiration_time : Int
  demo : Bool
deriving Repr, DecidableEq

/-- `WithingsUser.store_user_params`: the JSON content written for user `u`
owned by a client with flag `demo`. An `OSError` during the write is caught
and printed by the Python code, so the method itself never raises. -/
def store_user_params (demo : Bool) (u : UserCreds) : StoredUserParams :=
  ⟨u.userid, u.access_token, u.refresh_token, u.scope, u.token_type, u.expiration_time, demo⟩

/-- The parsed JSON dict of a data-endpoint response. Keys are optional so
that responses missing `"status"`, `"body"` or `"error"` are representable
(each missing access raises `KeyError` in Python). `body` is kept opaque. -/
structure ApiResponse where
  status : Option Int
  body : Option String
  error : Option String
deriving Repr, DecidableEq

/-- Outcome of the data-endpoint POST inside `get_data_dict`. -/
inductive HttpResult where
  | failure (msg : String)
  | success (dct : ApiResponse)
deriving Repr, DecidableEq

/-- Outcome of the local JSON file write attempted when `to_json` is set. -/
inductive WriteOutcome where
  | ok
  | osError
deriving Repr, DecidableEq

/-- Environment oracle for one `get_data_dict` call: the current wall-clock
time, the token-endpoint outcome (consulted only if a refresh is triggered),
the data-endpoint outcome, and the file-write outcome. -/
structure DispatchEnv where
  now : Int
  refreshHttp : RefreshHttp
  mainHttp : HttpResult
  write : WriteOutcome
deriving Repr, DecidableEq

/-- One POST request sent to a data endpoint: target URL, request data dict,
and the headers attached. -/
structure SentRequest where
  url : String
  data : List (String × String)
  headers : List (String × String)
deriving Repr, DecidableEq

/-- Observable outcome of `get_data_dict`: the exception raised (if any), the
user's credential state afterwards, the number of token-refresh calls made,
the credential records persisted by `store_user_params`, the data-endpoint
requests actually sent, and the returned `dct["body"]` (if the call returns
normally). -/
structure DispatchResult where
  error : Option PyError
  user : UserCreds
  refreshCalls : Nat
  storedParams : List UserCreds
  sentRequests : List SentRequest
  returned : Option String
deriving Repr, DecidableEq

/-- The `try: json.dump(...) except OSError as e: print(...)` block of
`get_data_dict` (post_request.py lines 78-83): an `OSError` is caught and
printed, so neither outcome raises. -/
def handle_write : WriteOutcome → Option PyError
  | .ok => none
  | .osError => none

/-- `post_request.get_data_dict` (post_request.py lines 44-85):

    if user.expiration_time < int(time.time()):
        user.refresh_existing_token()
    headers = user.create_headers()
    response = post_request(url, data, headers)
    dct = json.loads(response.content)
    if dct["status"] != 0:
        raise exceptions.WithingsStatusNotZeroError(data, url, dct)
    if to_json:
        user_folder = f"user_{user.userid}"
        filename = url.split(...)[-1] + "_" + data["action"] + ".json"
        try: ... json.dump(dct["body"], f, ...) except OSError: print(...)
    return dct["body"]

Note `WithingsStatusNotZeroError.__init__` interpolates `dct["error"]` into
its message, so a non-zero status with a missing `"error"` key raises
`KeyError` instead. In the `to_json` branch the filename line reads
`data["action"]` BEFORE the `try`, so a data dict without an `"action"` key
raises an uncaught `KeyError`; the `dct["body"]` read for `json.dump` sits
inside the `try`, but a `KeyError` there is not an `OSError` and propagates
too — only the `OSError` of the write itself is caught and printed.
`post_request` itself calls `res.raise_for_status()` and re-raises any
`requests.RequestException` after printing.

The function is factored into the send phase below (`dispatch_send`,
everything after the expiry check) and the expiry-check wrapper
(`get_data_dict`); composing them is literally the Python control flow. -/
def dispatch_send (data : List (String × String)) (url : String) (env : DispatchEnv)
    (u1 : UserCreds) (n : Nat) (st : List UserCreds) (to_json : Bool) : DispatchResult :=
  let headers := create_headers u1
  let sent : List SentRequest := [⟨url, data, headers⟩]
  match env.mainHttp with
  | .failure msg => ⟨some (.requestException msg), u1, n, st, sent, none⟩
  | .success dct =>
    match dct.status with
    | none => ⟨some (.keyError "status"), u1, n, st, sent, none⟩
    | some s =>
      if s ≠ 0 then
        match dct.error with
        | none => ⟨some (.keyError "error"), u1, n, st, sent, none⟩
        | some _ => ⟨some (.withingsStatusNotZero s), u1, n, st, sent, none⟩
      else
        if to_json then
          match List.lookup "action" data with
          | none => ⟨some (.keyError "action"), u1, n, st, sent, none⟩
          | some _ =>
            match dct.body with
            | none => ⟨some (.keyError "body"), u1, n, st, sent, none⟩
            | some b =>
              match handle_write env.write with
              | some e => ⟨some e, u1, n, st, sent, none⟩
              | none => ⟨none, u1, n, st, sent, some b⟩
        else
          match dct.body with
          | none => ⟨some (.keyError "body"), u1, n, st, sent, none⟩
          | some b => ⟨none, u1, n, st, sent, some b⟩

/-- `get_data_dict` proper: the expiry check and refresh (post_request.py
lines 64-65) followed by the send phase. `n` / `st` in `dispatch_send` carry
the refresh-call count and persisted records out of the first phase. -/
def get_data_dict (data : List (String × String)) (url : String) (env : DispatchEnv)
    (u : UserCreds) (to_json : Bool) : DispatchResult :=
  if u.expiration_time < env.now then
    match refresh_existing_token env.now env.refreshHttp u with
    | (some e, u1, tr) => ⟨some e, u1, 1, tr.stores, [], none⟩
    | (none, u1, tr) => dispatch_send data url env u1 1 tr.stores to_json
  else
    dispatch_send data url env u 0 [] to_json

/-- The token-endpoint response body used by `WithingsUser.__init__` when no
prior data is given (withings_user.py lines 67-77). Keys optional: the
constructor's loop raises `KeyError` for each missing key of
`["userid", "access_token", "refresh_token", "scope", "token_type",
"expiration_time"]`, and line 77 additionally reads `token_data["expires_in"]`. -/
structure TokenData where
  userid : Option String
  access_token : Option String
  refresh_token : Option String
  scope : Option String
  token_type : Option String
  expiration_time : Option Int
  expires_in : Option Int
deriving Repr, DecidableEq

/-- The no-prior-data branch of `WithingsUser.__init__` (withings_user.py
lines 67-80): set the six attributes from the token body (raising `KeyError`
on a missing key, including the key `"expiration_time"`), then overwrite
`expiration_time` with `int(time.time()) + token_data["expires_in"]`, then
`store_user_params`. Returns the exception (if any), the constructed
credentials on success, and the records persisted. -/
def withings_user_init_new (now : Int) (td : TokenData) :
    Option PyError × Option UserCreds × List UserCreds :=
  match td.userid with
  | none => (some (.keyError "userid"), none, [])
  | some uid =>
    match td.access_token with
    | none => (some (.keyError "access_token"), none, [])
    | some a =>
      match td.refresh_token with
      | none => (some (.keyError "refresh_token"), none, [])
      | some r =>
        match td.scope with
        | none => (some (.keyError "scope"), none, [])
        | some sc =>
          match td.token_type with
          | none => (some (.keyError "token_type"), none, [])
          | some tt =>
            match td.expiration_time with
            | none => (some (.keyError "expiration_time"), none, [])
            | some _ =>
              match td.expires_in with
              | none => (some (.keyError "expires_in"), none, [])
              | some e =>
                let u : UserCreds := ⟨uid, a, r, sc, tt, now + e⟩
                (none, some u, [u])

/-- The client registration record (withings_client.py): the six attributes
set by `WithingsClient.__init__`. -/
structure ClientParams where
  client_id : String
  client_secret : String
  redirect_uri : String
  state : String
  scope : String
  demo : Bool
deriving Repr, DecidableEq

/-- `WithingsClient.__init__` (withings_client.py lines 36-56): set the six
attributes from the arguments, then call `store_client_params()` once.
Returns the constructed record and the list of file writes performed
(the JSON content of each write, which is the full record). -/
def withings_client_init (client_id client_secret redirect_uri state scope : String)
    (demo : Bool) : ClientParams × List ClientParams :=
  let c : ClientParams := ⟨client_id, client_secret, redirect_uri, state, scope, demo⟩
  (c, [c])

/-- `urllib.parse.urlencode`, with percent-encoding abstracted away
(none of the claims depends on the escaping of individual characters). -/
def urlencode (ps : List (String × String)) : String :=
  String.intercalate "&" (ps.map (fun p => p.1 ++ "=" ++ p.2))

/-- `WithingsClient.create_auth_url` (withings_client.py lines 110-131). -/
def create_auth_url (c : ClientParams) : String :=
  let auth_params := [("response_type", "code"), ("client_id", c.client_id),
    ("scope", c.scope), ("redirect_uri", c.redirect_uri), ("state", c.state)]
  let auth_params := if c.demo then auth_params ++ [("mode", "demo")] else auth_params
  URL_AUTH ++ "?" ++ urlencode auth_params

/-- The request body built by `WithingsClient.post_request_access`
(withings_client.py lines 133-157). -/
def post_request_access_data (c : ClientParams) (code : String) : List (String × String) :=
  [("action", "requesttoken"), ("grant_type", "authorization_code"),
   ("client_id", c.client_id), ("client_secret", c.client_secret),
   ("code", code), ("redirect_uri", c.redirect_uri)]

/-- The request body built by `WithingsUser.post_request_refresh`
(withings_user.py lines 165-185). -/
def post_request_refresh_data (c : ClientParams) (u : UserCreds) : List (String × String) :=
  [("action", "requesttoken"), ("grant_type", "refresh_token"),
   ("client_id", c.client_id), ("client_secret", c.client_secret),
   ("refresh_token", u.refresh_token)]

/-- The operations a `WithingsClient` exposes after construction
(withings_client.py): `create_auth_url`, `post_request_access`,
`access_new_token`, and `store_client_params` itself. -/
inductive ClientOp where
  | createAuthUrl
  | postRequestAccess (code : String)
  | accessNewToken (returned_state code : String)
  | storeClientParams
deriving Repr, DecidableEq

/-- Runs one client operation on the registration record, returning the
record afterwards and the number of writes to the client-params JSON file the
operation performs. None of the method bodies assigns to any `self`
attribute; only `store_client_params` writes the file. `access_new_token`
raises `ValueError` on a state mismatch (line 183) — still no mutation and no
write. -/
def run_client_op (op : ClientOp) (c : ClientParams) : ClientParams × Nat :=
  match op with
  | .createAuthUrl => (c, 0)
  | .postRequestAccess _ => (c, 0)
  | .accessNewToken _ _ => (c, 0)
  | .storeClientParams => (c, 1)

/-- Minimal model of the Python values compared in `post_request_measure`:
a `str`, or the `types.GenericAlias` produced by subscripting the built-in
type `dict` (PEP 585, available since Python 3.9; this package requires a
newer Python still: `int | None` annotations need 3.10 and the nested-quote
f-string in exceptions_warnings.py needs 3.12). -/
inductive PyVal where
  | pstr (s : String)
  | genericAlias (base : String) (arg : String)
deriving Repr, DecidableEq

/-- Python `==` on those values: `types.GenericAlias.__eq__` against a `str`
returns `NotImplemented`, so the comparison falls back to identity and yields
`False`; two strings compare by value. -/
def pyEq : PyVal → PyVal → Bool
  | .pstr a, .pstr b => a = b
  | .genericAlias b1 a1, .genericAlias b2 a2 => b1 = b2 && a1 = a2
  | _, _ => false

/-- `measure.post_request_measure` (measure.py lines 231-251):

    if dict["action"] == "getmeas":
        url = CONST.URL_MEASURE
    else:
        url = CONST.URL_MEASURE_V2
    return post_request.get_data_dict(data, url, user, to_json)

The condition subscripts the built-in type `dict`, not the `data` argument:
`dict["action"]` evaluates to the generic alias `dict['action']`, which never
equals the string `"getmeas"`. Returns the URL chosen plus the dispatch
outcome. -/
def post_request_measure (data : List (String × String)) (env : DispatchEnv)
    (u : UserCreds) (to_json : Bool) : String × DispatchResult :=
  let url :=
    if pyEq (.genericAlias "dict" "action") (.pstr "getmeas") then URL_MEASURE
    else URL_MEASURE_V2
  (url, get_data_dict data url env u to_json)

/-- The Python pattern

    for data_field in data_fields:
        if data_field not in allowed:
            warnings.warn(...)
            data_fields.remove(data_field)

shared by `data_sleep_get` (sleep.py lines 45-48), `data_sleep_summary`,
`data_measure_get_activity` (measure.py lines 56-59) and others: the list is
mutated in place while the `for` iterator's internal index advances, and
`list.remove` deletes the first occurrence of the value. Modelled by explicit
index-passing; `List.erase` is exactly remove-first-occurrence. -/
def pyRemoveLoop (allowed : List String) (l : List String) (i : Nat) : List String :=
  match h : l[i]? with
  | none => l
  | some x =>
    if x ∈ allowed then
      pyRemoveLoop allowed l (i + 1)
    else
      pyRemoveLoop allowed (l.erase x) (i + 1)
termination_by l.length - i
decreasing_by
  · have hi : i < l.length := by
      by_contra hge
      simp [List.getElem?_eq_none (Nat.le_of_not_lt hge)] at h
    omega
  · have hi : i < l.length := by
      by_contra hge
      simp [List.getElem?_eq_none (Nat.le_of_not_lt hge)] at h
    have hmem : x ∈ l := by
      have := List.getElem?_eq_some.mp h
      obtain ⟨hlt, hget⟩ := this
      exact hget ▸ l.getElem_mem hlt
    have : (l.erase x).length = l.length - 1 := List.length_erase_of_mem hmem
    omega

/-- The request dictionary returned by `sleep.data_sleep_get`
(sleep.py lines 53-54). -/
structure SleepGetRequest where
  action : String
  startdate : Int
  enddate : Int
  data_fields : String
deriving Repr, DecidableEq

/-- `sleep.data_sleep_get` (sleep.py lines 18-54): warn on date anomalies (no
effect on the value), drop invalid entries from `data_fields` with the
in-place removal loop, fall back to `CONST.SLEEP_GET_DATA_FIELDS` when the
list ends up empty, and return the request dict with the comma-joined field
string. -/
def data_sleep_get (startdate enddate : Int) (data_fields : List String) :
    SleepGetRequest :=
  let fields := pyRemoveLoop SLEEP_GET_DATA_FIELDS data_fields 0
  let fields := if fields.length = 0 then SLEEP_GET_DATA_FIELDS else fields
  ⟨"get", startdate, enddate, String.intercalate "," fields⟩

/-- `dt.date.fromtimestamp`, abstracted to the date's epoch-day number
(timezone handling is irrelevant to every claim; only injectivity-free
plumbing of the converted value matters). -/
def dateFromTimestamp (t : Int) : Int :=
  Int.fdiv t 86400

/-- `utils.handle_start_end_update_ymd` (utils.py lines 34-83):

    if (startdate is None or enddate is None) and lastupdate is None:
        raise ValueError("At least one required parameter is missing")
    elif (startdate is not None or enddate is not None) and lastupdate is not None:
        raise ValueError("The provided parameters are incompatible")
    if startdate is not None and enddate is not None:
        startdateymd = dt.date.fromtimestamp(startdate)
        enddateymd = dt.date.fromtimestamp(enddate)
    else:
        startdateymd = None
        enddateymd = None
    return startdateymd, enddateymd, lastupdate
-/
def handle_start_end_update_ymd (startdate enddate lastupdate : Option Int) :
    Except PyError (Option Int × Option Int × Option Int) :=
  if (startdate.isNone || enddate.isNone) && lastupdate.isNone then
    .error (.valueError "At least one required parameter is missing")
  else if (startdate.isSome || enddate.isSome) && lastupdate.isSome then
    .error (.valueError "The provided parameters are incompatible")
  else
    match startdate, enddate with
    | some s, some e => .ok (some (dateFromTimestamp s), some (dateFromTimestamp e), lastupdate)
    | _, _ => .ok (none, none, lastupdate)

/-! ### Helper lemmas (shared) -/

theorem pyRemoveLoop_stop (allowed l : List String) (i : Nat) (h : l[i]? = none) :
    pyRemoveLoop allowed l i = l := by
  rw [pyRemoveLoop]
  split <;> simp_all

theorem pyRemoveLoop_step_valid (allowed l : List String) (i : Nat) (x : String)
    (h : l[i]? = some x) (hx : x ∈ allowed) :
    pyRemoveLoop allowed l i = pyRemoveLoop allowed l (i + 1) := by
  rw [pyRemoveLoop]
  split <;> simp_all

theorem pyRemoveLoop_step_invalid (allowed l : List String) (i : Nat) (x : String)
    (h : l[i]? = some x) (hx : x ∉ allowed) :
    pyRemoveLoop allowed l i = pyRemoveLoop allowed (l.erase x) (i + 1) := by
  rw [pyRemoveLoop]
  split <;> simp_all

theorem pyRemoveLoop_valid_from_aux (allowed : List String) :
    ∀ (k : Nat) (l : List String) (i : Nat), l.length - i ≤ k →
      (∀ (j : Nat) (x : String), i ≤ j → l[j]? = some x → x ∈ allowed) →
      pyRemoveLoop allowed l i = l := by
  intro k
  induction k with
  | zero =>
    intro l i hk hv
    exact pyRemoveLoop_stop _ _ _ (List.getElem?_eq_none (by omega))
  | succ k ih =>
    intro l i hk hv
    by_cases hi : i < l.length
    · have hsome : l[i]? = some l[i] := List.getElem?_eq_getElem hi
      rw [pyRemoveLoop_step_valid _ _ _ _ hsome (hv i _ le_rfl hsome)]
      exact ih l (i + 1) (by omega) (fun j x hij hx => hv j x (by omega) hx)
    · exact pyRemoveLoop_stop _ _ _ (List.getElem?_eq_none (by omega))

/-- If every element at position `i` or later is in `allowed`, the Python
removal loop starting at `i` leaves the list unchanged. -/
theorem pyRemoveLoop_valid_from (allowed l : List String) (i : Nat)
    (hv : ∀ (j : Nat) (x : String), i ≤ j → l[j]? = some x → x ∈ allowed) :
    pyRemoveLoop allowed l i = l :=
  pyRemoveLoop_valid_from_aux allowed l.length l i (by omega) hv

theorem pyRemoveLoop_skip_aux (allowed : List String) :
    ∀ (d : Nat) (l : List String) (i p : Nat), p - i ≤ d → i ≤ p → p ≤ l.length →
      (∀ (j : Nat) (x : String), i ≤ j → j < p → l[j]? = some x → x ∈ allowed) →
      pyRemoveLoop allowed l i = pyRemoveLoop allowed l p := by
  intro d
  induction d with
  | zero =>
    intro l i p hd hip hpl hv
    have : i = p := by omega
    rw [this]
  | succ d ih =>
    intro l i p hd hip hpl hv
    by_cases hip2 : i = p
    · rw [hip2]
    · have hi : i < l.length := by omega
      have hsome : l[i]? = some l[i] := List.getElem?_eq_getElem hi
      rw [pyRemoveLoop_step_valid _ _ _ _ hsome (hv i _ le_rfl (by omega) hsome)]
      exact ih l (i + 1) p (by omega) (by omega) hpl
        (fun j x h1 h2 hx => hv j x (by omega) h2 hx)

/-- If every element at positions `i ≤ j < p` is in `allowed`, the loop at `i`
behaves like the loop at `p` (it walks over the valid segment unchanged). -/
theorem pyRemoveLoop_skip_to (allowed l : List String) (i p : Nat) (hip : i ≤ p)
    (hpl : p ≤ l.length)
    (hv : ∀ (j : Nat) (x : String), i ≤ j → j < p → l[j]? = some x → x ∈ allowed) :
    pyRemoveLoop allowed l i = pyRemoveLoop allowed l p :=
  pyRemoveLoop_skip_aux allowed p l i p (by omega) hip hpl hv

theorem handle_write_eq_none (w : WriteOutcome) : handle_write w = none := by
  cases w <;> rfl

theorem dispatch_send_frame (data : List (String × String)) (url : String)
    (env : DispatchEnv) (u1 : UserCreds) (n : Nat) (st : List UserCreds) (tj : Bool) :
    (dispatch_send data url env u1 n st tj).user = u1 ∧
    (dispatch_send data url env u1 n st tj).refreshCalls = n ∧
    (dispatch_send data url env u1 n st tj).storedParams = st ∧
    (dispatch_send data url env u1 n st tj).sentRequests = [⟨url, data, create_headers u1⟩] := by
  unfold dispatch_send
  dsimp only
  repeat' split
  all_goals simp

theorem dispatch_send_no_typeerror (data : List (String × String)) (url : String)
    (env : DispatchEnv) (u1 : UserCreds) (n : Nat) (st : List UserCreds) (tj : Bool)
    (m : String) :
    (dispatch_send data url env u1 n st tj).error ≠ some (.typeError m) := by
  unfold dispatch_send
  dsimp only
  repeat' split
  all_goals simp_all [handle_write_eq_none]

theorem refresh_no_typeerror (now : Int) (http : RefreshHttp) (u : UserCreds) (m : String) :
    (refresh_existing_token now http u).1 ≠ some (.typeError m) := by
  rcases http with msg | body
  · simp [refresh_existing_token]
  · rcases body with _ | res
    · simp [refresh_existing_token]
    · rcases res with ⟨oa, orr, oe⟩
      rcases oa with _ | a <;> rcases orr with _ | r <;> rcases oe with _ | e <;>
        simp [refresh_existing_token]

/-- On a successful refresh, exactly the (one) updated credential record was
handed to `store_user_params`. -/
theorem refresh_success_stores (now : Int) (http : RefreshHttp) (u : UserCreds)
    (h : (refresh_existing_token now http u).1 = none) :
    (refresh_existing_token now http u).2.2.stores =
      [(refresh_existing_token now http u).2.1] := by
  rcases http with msg | body
  · simp [refresh_existing_token] at h
  · rcases body with _ | res
    · simp [refresh_existing_token] at h
    · rcases res with ⟨oa, orr, oe⟩
      rcases oa with _ | a <;> rcases orr with _ | r <;> rcases oe with _ | e <;>
        simp_all [refresh_existing_token]

/-- Every data-endpoint request `get_data_dict` sends goes to the URL it was
given. -/
theorem get_data_dict_sent_url (data : List (String × String)) (url : String)
    (env : DispatchEnv) (u : UserCreds) (tj : Bool) :
    ∀ s ∈ (get_data_dict data url env u tj).sentRequests, s.url = url := by
  intro s hs
  by_cases hexp : u.expiration_time < env.now
  · rcases hr : refresh_existing_token env.now env.refreshHttp u with ⟨oe, u1, tr⟩
    rcases oe with _ | pe
    · rw [get_data_dict, if_pos hexp, hr] at hs
      rw [(dispatch_send_frame data url env u1 1 tr.stores tj).2.2.2] at hs
      simp at hs
      rw [hs]
    · rw [get_data_dict, if_pos hexp, hr] at hs
      simp at hs
  · rw [get_data_dict, if_neg hexp] at hs
    rw [(dispatch_send_frame data url env u 0 [] tj).2.2.2] at hs
    simp at hs
    rw [hs]

/-! ### Claim theorems -/

/-- Claim C1: in `get_data_dict` the current time is compared to the user's
`expiration_time` before the request is sent; if the token is expired
(`expiration_time < now`) exactly one `refresh_existing_token` call is made,
the (one) updated credential record is persisted, and the original request is
sent with headers built from the refreshed credentials; if the token is not
expired, no refresh call is made and no credential record is persisted. -/
theorem get_data_dict_refresh_policy (data : List (String × String)) (url : String)
    (env : DispatchEnv) (u : UserCreds) (tj : Bool) :
    (u.expiration_time < env.now →
      (get_data_dict data url env u tj).refreshCalls = 1 ∧
      ((refresh_existing_token env.now env.refreshHttp u).1 = none →
        (get_data_dict data url env u tj).user =
          (refresh_existing_token env.now env.refreshHttp u).2.1 ∧
        (get_data_dict data url env u tj).storedParams =
          [(get_data_dict data url env u tj).user] ∧
        (get_data_dict data url env u tj).sentRequests =
          [⟨url, data, create_headers (get_data_dict data url env u tj).user⟩])) ∧
    (¬ u.expiration_time < env.now →
      (get_data_dict data url env u tj).refreshCalls = 0 ∧
      (get_data_dict data url env u tj).user = u ∧
      (get_data_dict data url env u tj).storedParams = [] ∧
      (get_data_dict data url env u tj).sentRequests = [⟨url, data, create_headers u⟩]) := by
  constructor
  · intro hexp
    rcases hr : refresh_existing_token env.now env.refreshHttp u with ⟨oe, u1, tr⟩
    rcases oe with _ | pe
    · have hgd : get_data_dict data url env u tj = dispatch_send data url env u1 1 tr.stores tj := by
        rw [get_data_dict, if_pos hexp, hr]
      have hst := refresh_success_stores env.now env.refreshHttp u (by rw [hr])
      rw [hr] at hst
      simp at hst
      constructor
      · rw [hgd]
        exact (dispatch_send_frame data url env u1 1 tr.stores tj).2.1
      · intro _
        rw [hgd]
        have hf := dispatch_send_frame data url env u1 1 tr.stores tj
        refine ⟨?_, ?_, ?_⟩
        · rw [hf.1]
        · rw [hf.2.2.1, hf.1, hst]
        · rw [hf.2.2.2, hf.1]
    · have hgd : get_data_dict data url env u tj =
          ⟨some pe, u1, 1, tr.stores, [], none⟩ := by
        rw [get_data_dict, if_pos hexp, hr]
      constructor
      · rw [hgd]
      · intro hnone
        simp at hnone
  · intro hexp
    have hgd : get_data_dict data url env u tj = dispatch_send data url env u 0 [] tj := by
      rw [get_data_dict, if_neg hexp]
    have hf := dispatch_send_frame data url env u 0 [] tj
    rw [hgd]
    exact ⟨hf.2.1, hf.1, hf.2.2.1, hf.2.2.2⟩

/-- Witness for C1: a concrete expired token triggers exactly one refresh. -/
theorem get_data_dict_refresh_policy_witness :
    (get_data_dict [] URL_SLEEP_V2
      ⟨100, .success (some ⟨some "a2", some "r2", some 3600⟩),
        .success ⟨some 0, some "B", none⟩, .ok⟩
      ⟨"u", "a1", "r1", "sc", "Bearer", 50⟩ false).refreshCalls = 1 :=
  ((get_data_dict_refresh_policy [] URL_SLEEP_V2
      ⟨100, .success (some ⟨some "a2", some "r2", some 3600⟩),
        .success ⟨some 0, some "B", none⟩, .ok⟩
      ⟨"u", "a1", "r1", "sc", "Bearer", 50⟩ false).1 (by decide)).1

/-- Counterexample to C2 as stated: a refresh that succeeds (no exception,
credentials updated and persisted) with a token-endpoint `expires_in` of `0`
leaves `expiration_time` equal to the current time, not strictly greater.
The code stores `int(time.time()) + expires_in` without constraining
`expires_in`. -/
theorem refresh_expiration_not_future_cex :
    (refresh_existing_token 50 (.success (some ⟨some "a2", some "r2", some 0⟩))
      ⟨"u", "a1", "r1", "sc", "Bearer", 40⟩).1 = none ∧
    ¬ (50 : Int) <
      (refresh_existing_token 50 (.success (some ⟨some "a2", some "r2", some 0⟩))
        ⟨"u", "a1", "r1", "sc", "Bearer", 40⟩).2.1.expiration_time := by
  constructor
  · rfl
  · simp [refresh_existing_token]

/-- Claim C2 (amended): immediately after a successful refresh, and after a
successful initial grant in `WithingsUser.__init__` without prior data,
`expiration_time` is strictly greater than the current time, provided the
vendor-reported `expires_in` is positive (the code stores
`now + expires_in`, so `expires_in = 0` yields exactly `now`). -/
theorem expiration_future_after_success (now : Int) (u : UserCreds) (a r : String)
    (e : Int) (td : TokenData) (he : 0 < e) :
    ((refresh_existing_token now (.success (some ⟨some a, some r, some e⟩)) u).1 = none ∧
      now < (refresh_existing_token now
        (.success (some ⟨some a, some r, some e⟩)) u).2.1.expiration_time) ∧
    (td.expires_in = some e →
      ∀ u2, (withings_user_init_new now td).2.1 = some u2 → now < u2.expiration_time) := by
  constructor
  · refine ⟨rfl, ?_⟩
    simp [refresh_existing_token]
    omega
  · intro hei u2 h2
    rcases td with ⟨uid, ta, tr, tsc, ttt, tet, tei⟩
    simp at hei
    rcases uid with _ | uid <;> rcases ta with _ | ta <;> rcases tr with _ | tr <;>
      rcases tsc with _ | tsc <;> rcases ttt with _ | ttt <;> rcases tet with _ | tet <;>
      simp_all [withings_user_init_new]
    subst h2
    simp
    omega

/-- Witness for C2 (amended): with `expires_in = 3600` at time `0`, the new
expiration is in the future. -/
theorem expiration_future_after_success_witness :
    (0 : Int) <
      (refresh_existing_token 0 (.success (some ⟨some "a2", some "r2", some 3600⟩))
        ⟨"u", "a1", "r1", "sc", "Bearer", -5⟩).2.1.expiration_time :=
  ((expiration_future_after_success 0 ⟨"u", "a1", "r1", "sc", "Bearer", -5⟩ "a2" "r2" 3600
    ⟨some "u", some "a2", some "r2", some "sc", some "Bearer", some 99, some 3600⟩
    (by decide)).1).2

/-- Counterexample to C3 as stated: a successful call to
`refresh_existing_token` made while the old token is still valid can yield an
`expiration_time` equal to (not strictly greater than) the previous one:
old expiration `10800`, current time `0`, vendor `expires_in` `10800`. -/
theorem refresh_monotone_cex :
    (refresh_existing_token 0 (.success (some ⟨some "a2", some "r2", some 10800⟩))
      ⟨"u", "a1", "r1", "sc", "Bearer", 10800⟩).1 = none ∧
    ¬ ((10800 : Int) <
      (refresh_existing_token 0 (.success (some ⟨some "a2", some "r2", some 10800⟩))
        ⟨"u", "a1", "r1", "sc", "Bearer", 10800⟩).2.1.expiration_time) := by
  constructor
  · rfl
  · simp [refresh_existing_token]

/-- Claim C3 (amended): every successful `refresh_existing_token` call made
when the token is expired (`expiration_time < now`, the only situation in
which the library invokes it) with a non-negative `expires_in` stores a new
`expiration_time` strictly greater than the previous one. -/
theorem refresh_increases_expiration (now : Int) (u : UserCreds) (a r : String)
    (e : Int) (hexp : u.expiration_time < now) (he : 0 ≤ e) :
    u.expiration_time <
      (refresh_existing_token now (.success (some ⟨some a, some r, some e⟩))
        u).2.1.expiration_time := by
  simp [refresh_existing_token]
  omega

/-- Witness for C3 (amended). -/
theorem refresh_increases_expiration_witness :
    ((⟨"u", "a1", "r1", "sc", "Bearer", 40⟩ : UserCreds).expiration_time <
      (refresh_existing_token 50 (.success (some ⟨some "a2", some "r2", some 3600⟩))
        ⟨"u", "a1", "r1", "sc", "Bearer", 40⟩).2.1.expiration_time) :=
  refresh_increases_expiration 50 ⟨"u", "a1", "r1", "sc", "Bearer", 40⟩ "a2" "r2" 3600
    (by decide) (by decide)

/-- Claim C4: if the refresh call fails — the token-endpoint POST raises
(non-success HTTP status), or the parsed response is malformed (missing
`"body"`, or a body missing `"access_token"`) — `refresh_existing_token`
raises to its caller: exactly one POST is made (no retry, no backoff, no
fallback), nothing is persisted, and the credentials are left untouched only
together with a propagated exception (never a silent no-op). -/
theorem refresh_failure_propagates (now : Int) (u : UserCreds) (http : RefreshHttp)
    (hfail : (∃ m, http = .failure m) ∨ http = .success none ∨
      ∃ res, http = .success (some res) ∧ res.access_token = none) :
    (refresh_existing_token now http u).1 ≠ none ∧
    (refresh_existing_token now http u).2.2.postCalls = 1 ∧
    (refresh_existing_token now http u).2.2.stores = [] ∧
    (refresh_existing_token now http u).2.1 = u := by
  rcases hfail with ⟨m, rfl⟩ | rfl | ⟨res, rfl, ha⟩
  · simp [refresh_existing_token]
  · simp [refresh_existing_token]
  · rcases res with ⟨oa, orr, oe⟩
    simp at ha
    simp [ha, refresh_existing_token]

/-- Witness for C4: a concrete failing POST propagates and retries nothing. -/
theorem refresh_failure_propagates_witness :
    (refresh_existing_token 0 (.failure "HTTP 500") ⟨"u", "a1", "r1", "sc", "Bearer", 0⟩).1 ≠ none ∧
    (refresh_existing_token 0 (.failure "HTTP 500")
      ⟨"u", "a1", "r1", "sc", "Bearer", 0⟩).2.2.postCalls = 1 ∧
    (refresh_existing_token 0 (.failure "HTTP 500")
      ⟨"u", "a1", "r1", "sc", "Bearer", 0⟩).2.2.stores = [] ∧
    (refresh_existing_token 0 (.failure "HTTP 500")
      ⟨"u", "a1", "r1", "sc", "Bearer", 0⟩).2.1 = ⟨"u", "a1", "r1", "sc", "Bearer", 0⟩ :=
  refresh_failure_propagates 0 ⟨"u", "a1", "r1", "sc", "Bearer", 0⟩ (.failure "HTTP 500")
    (Or.inl ⟨"HTTP 500", rfl⟩)

/-- Counterexample to C5 as stated: the flow does swallow an error and
continue. With `to_json=True` and an `OSError` during the response-body file
write, `get_data_dict` catches the error, prints it, and returns the body
normally — the caller sees no exception. -/
theorem get_data_dict_swallows_oserror_cex :
    (get_data_dict [("action", "get")] URL_SLEEP_V2
      ⟨0, .failure "unused", .success ⟨some 0, some "BODY", none⟩, .osError⟩
      ⟨"u", "a1", "r1", "sc", "Bearer", 100⟩ true).error = none ∧
    (get_data_dict [("action", "get")] URL_SLEEP_V2
      ⟨0, .failure "unused", .success ⟨some 0, some "BODY", none⟩, .osError⟩
      ⟨"u", "a1", "r1", "sc", "Bearer", 100⟩ true).returned = some "BODY" := by
  constructor <;> rfl

/-- Claim C5 (amended): in the dispatch flow with a valid (non-expired)
token, `get_data_dict` raises `WithingsStatusNotZeroError` exactly when the
parsed response's status is non-zero (given the response carries an `error`
message, which the exception constructor interpolates), an HTTP failure
re-raises `requests.RequestException`, a missing `status` key raises
`KeyError`, and with `to_json=True` a data dict lacking the `"action"` key
raises `KeyError` from the filename line; however an `OSError` while saving
the body with `to_json=True` is caught and printed, not propagated — the call
still returns the body. -/
theorem get_data_dict_error_propagation (data : List (String × String)) (url : String)
    (env : DispatchEnv) (u : UserCreds) (tj : Bool)
    (hnr : ¬ u.expiration_time < env.now) :
    (∀ m, env.mainHttp = .failure m →
      (get_data_dict data url env u tj).error = some (.requestException m)) ∧
    (∀ dct, env.mainHttp = .success dct → dct.status = none →
      (get_data_dict data url env u tj).error = some (.keyError "status")) ∧
    (∀ dct s em, env.mainHttp = .success dct → dct.status = some s → dct.error = some em →
      ((get_data_dict data url env u tj).error = some (.withingsStatusNotZero s) ↔ s ≠ 0)) ∧
    (∀ dct, env.mainHttp = .success dct → dct.status = some 0 → tj = true →
      List.lookup "action" data = none →
      (get_data_dict data url env u tj).error = some (.keyError "action")) ∧
    (∀ dct b, env.mainHttp = .success dct → dct.status = some 0 → dct.body = some b →
      (tj = true → List.lookup "action" data ≠ none) →
      (get_data_dict data url env u tj).error = none ∧
      (get_data_dict data url env u tj).returned = some b) := by
  have hgd : get_data_dict data url env u tj = dispatch_send data url env u 0 [] tj := by
    rw [get_data_dict, if_neg hnr]
  rw [hgd]
  refine ⟨?_, ?_, ?_, ?_, ?_⟩
  · intro m hm
    simp [dispatch_send, hm]
  · intro dct hm hs
    simp [dispatch_send, hm, hs]
  · intro dct s em hm hs he
    by_cases h0 : s = 0
    · subst h0
      cases tj
      · rcases hb : dct.body with _ | b <;> simp [dispatch_send, hm, hs, hb]
      · rcases hl : List.lookup "action" data with _ | v <;>
          rcases hb : dct.body with _ | b <;>
          simp [dispatch_send, hm, hs, hl, hb, handle_write_eq_none]
    · simp [dispatch_send, hm, hs, he, h0]
  · intro dct hm hs htj hl
    subst htj
    simp [dispatch_send, hm, hs, hl]
  · intro dct b hm hs hb hact
    cases tj
    · simp [dispatch_send, hm, hs, hb]
    · rcases hl : List.lookup "action" data with _ | v
      · exact absurd hl (hact rfl)
      · simp [dispatch_send, hm, hs, hb, hl, handle_write_eq_none]

/-- Witness for C5 (amended): a concrete call whose local file write fails
with `OSError` still returns without an exception. -/
theorem get_data_dict_error_propagation_witness :
    (get_data_dict [("action", "get")] URL_SLEEP_V2
      ⟨0, .failure "unused", .success ⟨some 0, some "B", none⟩, .osError⟩
      ⟨"u", "a1", "r1", "sc", "Bearer", 100⟩ true).error = none :=
  ((get_data_dict_error_propagation [("action", "get")] URL_SLEEP_V2
      ⟨0, .failure "unused", .success ⟨some 0, some "B", none⟩, .osError⟩
      ⟨"u", "a1", "r1", "sc", "Bearer", 100⟩ true (by decide)).2.2.2.2
    ⟨some 0, some "B", none⟩ "B" rfl rfl rfl (fun _ => by simp)).1

/-- Claim C6: a successful refresh updates exactly the credential fields
`access_token`, `refresh_token` and `expiration_time`; `userid`, `scope` and
`token_type` are unchanged; and the full updated record (all six fields, plus
the client's demo flag) is handed to `store_user_params` for persistence. -/
theorem refresh_mutates_only_tokens_and_persists (now : Int) (u : UserCreds)
    (a r : String) (e : Int) (demo : Bool) :
    (refresh_existing_token now (.success (some ⟨some a, some r, some e⟩)) u).1 = none ∧
    (refresh_existing_token now (.success (some ⟨some a, some r, some e⟩)) u).2.1.userid
      = u.userid ∧
    (refresh_existing_token now (.success (some ⟨some a, some r, some e⟩)) u).2.1.scope
      = u.scope ∧
    (refresh_existing_token now (.success (some ⟨some a, some r, some e⟩)) u).2.1.token_type
      = u.token_type ∧
    (refresh_existing_token now (.success (some ⟨some a, some r, some e⟩)) u).2.1.access_token
      = a ∧
    (refresh_existing_token now (.success (some ⟨some a, some r, some e⟩)) u).2.1.refresh_token
      = r ∧
    (refresh_existing_token now (.success (some ⟨some a, some r, some e⟩)) u).2.1.expiration_time
      = now + e ∧
    (refresh_existing_token now (.success (some ⟨some a, some r, some e⟩)) u).2.2.stores
      = [(refresh_existing_token now (.success (some ⟨some a, some r, some e⟩)) u).2.1] ∧
    store_user_params demo
        (refresh_existing_token now (.success (some ⟨some a, some r, some e⟩)) u).2.1
      = ⟨u.userid, a, r, u.scope, u.token_type, now + e, demo⟩ := by
  simp [refresh_existing_token, store_user_params]

/-- Claim C7: the client registration record is never mutated by any
operation `WithingsClient` exposes after construction, and construction
writes the record to its JSON file exactly once (`store_client_params` is the
only writing operation, and within the library it is invoked only by the
constructor). -/
theorem client_params_immutable_write_once (cid cs ru stt sc : String) (demo : Bool)
    (op : ClientOp) (c : ClientParams) :
    (withings_client_init cid cs ru stt sc demo).1 = ⟨cid, cs, ru, stt, sc, demo⟩ ∧
    (withings_client_init cid cs ru stt sc demo).2 =
      [(withings_client_init cid cs ru stt sc demo).1] ∧
    (run_client_op op c).1 = c ∧
    (op ≠ ClientOp.storeClientParams → (run_client_op op c).2 = 0) := by
  refine ⟨rfl, rfl, ?_, ?_⟩
  · cases op <;> rfl
  · intro hop
    cases op <;> simp_all [run_client_op]

/-- Witness for C7: a concrete non-writing operation performs zero writes. -/
theorem client_params_immutable_write_once_witness :
    (run_client_op ClientOp.createAuthUrl ⟨"i", "s", "r", "st", "sc", false⟩).2 = 0 :=
  (client_params_immutable_write_once "i" "s" "r" "st" "sc" false ClientOp.createAuthUrl
    ⟨"i", "s", "r", "st", "sc", false⟩).2.2.2 (by simp)

/-- The credential/dispatch flow can raise request, key, value and
Withings-status errors, but never a `TypeError`. -/
theorem get_data_dict_no_typeerror (data : List (String × String)) (url : String)
    (env : DispatchEnv) (u : UserCreds) (tj : Bool) (m : String) :
    (get_data_dict data url env u tj).error ≠ some (.typeError m) := by
  by_cases hexp : u.expiration_time < env.now
  · rcases hr : refresh_existing_token env.now env.refreshHttp u with ⟨oe, u1, tr⟩
    rcases oe with _ | pe
    · rw [get_data_dict, if_pos hexp, hr]
      exact dispatch_send_no_typeerror data url env u1 1 tr.stores tj m
    · rw [get_data_dict, if_pos hexp, hr]
      have hnt := refresh_no_typeerror env.now env.refreshHttp u m
      rw [hr] at hnt
      simpa using hnt
  · rw [get_data_dict, if_neg hexp]
    exact dispatch_send_no_typeerror data url env u 0 [] tj m

/-- Counterexample to C8 as stated: with a `getmeas` data dict and a healthy
environment, `post_request_measure` raises no `TypeError` — the subscript
`dict["action"]` is a `types.GenericAlias` on the Python this package
requires (3.12+: `int | None` annotations and nested-quote f-strings), the
comparison with `"getmeas"` is simply `False`, and the request IS dispatched
(to `URL_MEASURE_V2`, the wrong endpoint for `getmeas`). -/
theorem post_request_measure_dispatches_cex :
    (post_request_measure [("action", "getmeas")]
      ⟨0, .failure "unused", .success ⟨some 0, some "B", none⟩, .ok⟩
      ⟨"u", "a1", "r1", "sc", "Bearer", 100⟩ false).1 = URL_MEASURE_V2 ∧
    (post_request_measure [("action", "getmeas")]
      ⟨0, .failure "unused", .success ⟨some 0, some "B", none⟩, .ok⟩
      ⟨"u", "a1", "r1", "sc", "Bearer", 100⟩ false).2.error = none ∧
    (post_request_measure [("action", "getmeas")]
      ⟨0, .failure "unused", .success ⟨some 0, some "B", none⟩, .ok⟩
      ⟨"u", "a1", "r1", "sc", "Bearer", 100⟩ false).2.sentRequests =
      [⟨URL_MEASURE_V2, [("action", "getmeas")],
        create_headers ⟨"u", "a1", "r1", "sc", "Bearer", 100⟩⟩] := by
  refine ⟨rfl, rfl, rfl⟩

/-- Claim C8 (amended): `post_request_measure` never raises a `TypeError` and
never selects `URL_MEASURE`: because the condition subscripts the built-in
type `dict` instead of `data`, it is `False` for every input, so every
measure request — including `action == "getmeas"` — is dispatched to
`URL_MEASURE_V2`. -/
theorem post_request_measure_always_v2 (data : List (String × String))
    (env : DispatchEnv) (u : UserCreds) (tj : Bool) :
    (post_request_measure data env u tj).1 = URL_MEASURE_V2 ∧
    (∀ s ∈ (post_request_measure data env u tj).2.sentRequests, s.url = URL_MEASURE_V2) ∧
    (∀ m, (post_request_measure data env u tj).2.error ≠ some (.typeError m)) := by
  refine ⟨rfl, ?_, ?_⟩
  · intro s hs
    exact get_data_dict_sent_url data URL_MEASURE_V2 env u tj s hs
  · intro m
    exact get_data_dict_no_typeerror data URL_MEASURE_V2 env u tj m

/-- Witness for C8 (amended). -/
theorem post_request_measure_always_v2_witness :
    (post_request_measure [] ⟨0, .failure "x", .failure "y", .ok⟩
      ⟨"u", "a", "r", "s", "t", 0⟩ false).1 = URL_MEASURE_V2 :=
  (post_request_measure_always_v2 [] ⟨0, .failure "x", .failure "y", .ok⟩
    ⟨"u", "a", "r", "s", "t", 0⟩ false).1

/-- Counterexample to C9 as stated: in `["foo", "foo", "bar"]` the invalid
entries at positions 1 and 2 are adjacent, yet `"bar"` does NOT appear in the
result — the removal of the first `"foo"` shifts the pair left, the loop then
visits `"bar"` (not skipping it) and removes it; only `"foo"` survives. -/
theorem data_sleep_get_second_invalid_removed_cex :
    pyRemoveLoop SLEEP_GET_DATA_FIELDS ["foo", "foo", "bar"] 0 = ["foo"] ∧
    (data_sleep_get 0 1 ["foo", "foo", "bar"]).data_fields = "foo" ∧
    "bar" ∉ pyRemoveLoop SLEEP_GET_DATA_FIELDS ["foo", "foo", "bar"] 0 := by
  have h0 : pyRemoveLoop SLEEP_GET_DATA_FIELDS ["foo", "foo", "bar"] 0 =
      pyRemoveLoop SLEEP_GET_DATA_FIELDS ["foo", "bar"] 1 :=
    pyRemoveLoop_step_invalid SLEEP_GET_DATA_FIELDS ["foo", "foo", "bar"] 0 "foo"
      rfl (by decide)
  have h1 : pyRemoveLoop SLEEP_GET_DATA_FIELDS ["foo", "bar"] 1 =
      pyRemoveLoop SLEEP_GET_DATA_FIELDS ["foo"] 2 :=
    pyRemoveLoop_step_invalid SLEEP_GET_DATA_FIELDS ["foo", "bar"] 1 "bar"
      rfl (by decide)
  have h2 : pyRemoveLoop SLEEP_GET_DATA_FIELDS ["foo"] 2 = ["foo"] :=
    pyRemoveLoop_stop SLEEP_GET_DATA_FIELDS ["foo"] 2 rfl
  have hall : pyRemoveLoop SLEEP_GET_DATA_FIELDS ["foo", "foo", "bar"] 0 = ["foo"] := by
    rw [h0, h1, h2]
  refine ⟨hall, ?_, by simp [hall]⟩
  rw [data_sleep_get, hall]
  rfl

/-- Claim C9 (amended): when the two adjacent invalid entries are the only
invalid entries of the list (`pre` and `post` hold only valid fields), the
in-place removal while iterating makes the loop skip the second invalid
entry: it survives into the result list, whose comma-join becomes the
`data_fields` string of the returned request dictionary. (With further
invalid entries before the pair the second entry can instead be visited and
removed — see the counterexample.) -/
theorem data_sleep_get_adjacent_invalid_pair (s e : Int) (pre post : List String)
    (a b : String)
    (hpre : ∀ x ∈ pre, x ∈ SLEEP_GET_DATA_FIELDS)
    (hpost : ∀ x ∈ post, x ∈ SLEEP_GET_DATA_FIELDS)
    (ha : a ∉ SLEEP_GET_DATA_FIELDS) (hb : b ∉ SLEEP_GET_DATA_FIELDS) :
    pyRemoveLoop SLEEP_GET_DATA_FIELDS (pre ++ a :: b :: post) 0 = pre ++ b :: post ∧
    (data_sleep_get s e (pre ++ a :: b :: post)).data_fields =
      String.intercalate "," (pre ++ b :: post) ∧
    b ∈ pre ++ b :: post := by
  have hmain : pyRemoveLoop SLEEP_GET_DATA_FIELDS (pre ++ a :: b :: post) 0 =
      pre ++ b :: post := by
    have hlen : (pre ++ a :: b :: post).length = pre.length + post.length + 2 := by
      simp
      omega
    have h1 : pyRemoveLoop SLEEP_GET_DATA_FIELDS (pre ++ a :: b :: post) 0 =
        pyRemoveLoop SLEEP_GET_DATA_FIELDS (pre ++ a :: b :: post) pre.length := by
      apply pyRemoveLoop_skip_to
      · omega
      · omega
      · intro j x h0j hjp hx
        rw [List.getElem?_append_left hjp] at hx
        exact hpre x (List.getElem?_mem hx)
    have hgeta : (pre ++ a :: b :: post)[pre.length]? = some a := by
      rw [List.getElem?_append_right le_rfl]
      simp
    have h2 : pyRemoveLoop SLEEP_GET_DATA_FIELDS (pre ++ a :: b :: post) pre.length =
        pyRemoveLoop SLEEP_GET_DATA_FIELDS ((pre ++ a :: b :: post).erase a)
          (pre.length + 1) :=
      pyRemoveLoop_step_invalid SLEEP_GET_DATA_FIELDS (pre ++ a :: b :: post)
        pre.length a hgeta ha
    have hanp : a ∉ pre := fun hmem => ha (hpre a hmem)
    have herase : (pre ++ a :: b :: post).erase a = pre ++ b :: post := by
      rw [List.erase_append_right (a :: b :: post) hanp, List.erase_cons_head]
    have h3 : pyRemoveLoop SLEEP_GET_DATA_FIELDS (pre ++ b :: post) (pre.length + 1) =
        pre ++ b :: post := by
      apply pyRemoveLoop_valid_from
      intro j x hij hx
      rw [List.getElem?_append_right (by omega)] at hx
      obtain ⟨k, hk⟩ : ∃ k, j - pre.length = k + 1 := ⟨j - pre.length - 1, by omega⟩
      rw [hk, List.getElem?_cons_succ] at hx
      exact hpost x (List.getElem?_mem hx)
    rw [h1, h2, herase, h3]
  refine ⟨hmain, ?_, by simp⟩
  rw [data_sleep_get, hmain]
  have hne : (pre ++ b :: post).length ≠ 0 := by simp
  simp only [hne, if_false]

/-- Witness for C9 (amended): `["hr", "foo", "bar", "rr"]` — invalid pair
`("foo", "bar")` amid otherwise valid fields — keeps `"bar"` in the joined
string. -/
theorem data_sleep_get_adjacent_invalid_pair_witness :
    (data_sleep_get 0 1 (["hr"] ++ "foo" :: "bar" :: ["rr"])).data_fields =
      String.intercalate "," (["hr"] ++ "bar" :: ["rr"]) :=
  (data_sleep_get_adjacent_invalid_pair 0 1 ["hr"] ["rr"] "foo" "bar"
    (by decide) (by decide) (by decide) (by decide)).2.1

/-- Claim C10: `handle_start_end_update_ymd` raises `ValueError` in exactly
two cases — `lastupdate` absent together with at least one of
`startdate`/`enddate` absent, and `lastupdate` present together with at least
one of `startdate`/`enddate` present — and in every other case returns
`(date(startdate), date(enddate), None)` or `(None, None, lastupdate)`
without raising. -/
theorem handle_start_end_update_ymd_spec (s e lu : Option Int) :
    ((∃ m, handle_start_end_update_ymd s e lu = .error (.valueError m)) ↔
      ((lu = none ∧ (s = none ∨ e = none)) ∨ (lu ≠ none ∧ (s ≠ none ∨ e ≠ none)))) ∧
    (∀ sv ev, s = some sv → e = some ev → lu = none →
      handle_start_end_update_ymd s e lu =
        .ok (some (dateFromTimestamp sv), some (dateFromTimestamp ev), none)) ∧
    (∀ lv, s = none → e = none → lu = some lv →
      handle_start_end_update_ymd s e lu = .ok (none, none, some lv)) := by
  rcases s with _ | sv <;> rcases e with _ | ev <;> rcases lu with _ | lv <;>
    simp [handle_start_end_update_ymd]

/-- Witness for C10: concrete start/end pair converts to dates; third slot is
`None`. -/
theorem handle_start_end_update_ymd_spec_witness :
    handle_start_end_update_ymd (some 0) (some 86400) none =
      .ok (some (dateFromTimestamp 0), some (dateFromTimestamp 86400), none) :=
  (handle_start_end_update_ymd_spec (some 0) (some 86400) none).2.1 0 86400 rfl rfl rfl

end PyWithings
